import Mathlib

/-!
# WeightCut planning engine — shallow embedding

Embedding of the calorie/macro planning core of `src/app.py`:

* `calculate_macros`     (app.py lines 163–202)
* `calculate_micros`     (app.py lines 204–230)
* `adjust_calories_based_on_progress` (app.py lines 232–304)
* `calculate_bmr_and_calories`        (app.py lines 306–331)
* the inline activity-tier lookup and daily-plan assembly of
  `food_log_page` (app.py lines 780–812; the same tier table appears in
  `profile_page` lines 460–472).

Python floats are modelled as `Rat`; calendar dates as `Int` day numbers,
so that `target_date - current_date` is the signed `days_to_goal`.
A Python value that may be `None` is an `Option`; Python truthiness
(`if x:` on a float is `x ≠ 0`, on `None` false) is made explicit at each
use.  The SQL query for the latest weight log at or before a date becomes
a pure fold over a list of entries.  Dict keys that only some branches of
`adjust_calories_based_on_progress` emit are `Option` fields: `none`
means the key is absent from the returned dict.  The numeric
interpolations of the branch-3 reason f-strings are carried in the
dedicated `actual_weight` / `target_weight_at_stage` / `difference`
fields; the reason strings keep their fixed leading text.
-/

namespace WeightCut

/-- A row of the `weight_logs` table: `log_date` and `weight`
(app.py lines 43–49; the free-text note is irrelevant to the core). -/
structure WeightEntry where
  log_date : Int
  weight : Rat
  deriving Repr, DecidableEq

/-- The query of app.py lines 257–261:
`session.query(WeightLog).filter_by(username=...).filter(WeightLog.log_date <= current_date).order_by(WeightLog.log_date.desc()).first()` —
the entry with the maximum `log_date ≤ current_date`, or `none`.
The history list is already the current user's rows. -/
def latestWeightOnOrBefore (logs : List WeightEntry) (current_date : Int) :
    Option WeightEntry :=
  (logs.filter (fun e => e.log_date ≤ current_date)).foldl
    (fun acc e =>
      match acc with
      | none => some e
      | some b => if b.log_date < e.log_date then some e else some b)
    none

/-- The adjustment-info dict returned by `adjust_calories_based_on_progress`
(app.py lines 251–254, 264–268, 297–304).  Each branch returns a dict with
a different key set, so every key that some branch omits is an `Option`:
`none` models the key being absent from that branch's dict. -/
structure AdjustmentInfo where
  adjusted : Bool
  adjustment : Option Rat
  reason : String
  needs_weight_log : Option Bool
  actual_weight : Option Rat
  target_weight_at_stage : Option Rat
  difference : Option Rat
  deriving Repr, DecidableEq

/-- `adjust_calories_based_on_progress` (app.py lines 232–304).
`current_weight` is the profile's stated weight, passed by both callers;
the body never reads it.  The database session/username pair is replaced
by the user's weight-log list. -/
def adjust_calories_based_on_progress (base_calories current_weight target_weight : Rat)
    (days_to_goal : Int) (logs : List WeightEntry) (current_date : Int) :
    Rat × AdjustmentInfo :=
  if days_to_goal ≤ 3 then
    (base_calories,
      { adjusted := false
        adjustment := none
        reason := "Within 3 days of target - using standard protocol"
        needs_weight_log := none
        actual_weight := none
        target_weight_at_stage := none
        difference := none })
  else
    match latestWeightOnOrBefore logs current_date with
    | none =>
      (base_calories,
        { adjusted := false
          adjustment := none
          reason := "No weight logged yet - log your weight to enable dynamic adjustments"
          needs_weight_log := some true
          actual_weight := none
          target_weight_at_stage := none
          difference := none })
    | some latest_weight_log =>
      let actual_weight := latest_weight_log.weight
      let target_weight_at_this_stage := target_weight * 1.05
      let weight_difference := actual_weight - target_weight_at_this_stage
      let adjustment : Rat :=
        if weight_difference > 1.0 then -200
        else if weight_difference < -1.0 then 200
        else 0
      let adjustment_reason : String :=
        if weight_difference > 1.0 then
          "Weight above target progression"
        else if weight_difference < -1.0 then
          "Weight below target progression"
        else
          "Weight on track"
      let adjusted_calories := base_calories + adjustment
      (adjusted_calories,
        { adjusted := adjustment ≠ 0
          adjustment := some adjustment
          reason := adjustment_reason
          needs_weight_log := none
          actual_weight := some actual_weight
          target_weight_at_stage := some target_weight_at_this_stage
          difference := some weight_difference })

/-- `calculate_bmr_and_calories` (app.py lines 306–331).
`bodyfat_percentage` is nullable in the schema, hence `Option`.  The
Python guard `if bodyfat_percentage and bodyfat_percentage > 0` is:
not `None`, truthy (`≠ 0`), and `> 0` — which collapses to `0 < bf`. -/
def calculate_bmr_and_calories (weight height : Rat)
    (bodyfat_percentage : Option Rat) : Rat :=
  let height_cm := height * 2.54
  let weight_kg := weight * 0.453592
  match bodyfat_percentage with
  | some bf =>
    if 0 < bf then
      370 + 21.6 * (weight_kg * (1 - bf / 100))
    else
      (10 * weight_kg) + (6.25 * height_cm) - (5 * 30) + 5
  | none => (10 * weight_kg) + (6.25 * height_cm) - (5 * 30) + 5

/-- Output record of `calculate_macros` (app.py lines 195–202). -/
structure Macros where
  protein_grams : Rat
  protein_calories : Rat
  fat_grams : Rat
  fat_calories : Rat
  carb_grams : Rat
  carb_calories : Rat
  deriving Repr, DecidableEq

/-- `calculate_macros` (app.py lines 163–202).  Python defaults:
`fat_percentage=0.25`, `carb_percentage=None`, `lean_body_mass=None`.
`if lean_body_mass:` is truthiness on an optional float: taken exactly
when the value is present and nonzero. -/
def calculate_macros (weight target_calories : Rat) (fat_percentage : Rat)
    (carb_percentage : Option Rat) (lean_body_mass : Option Rat) : Macros :=
  let protein_grams :=
    match lean_body_mass with
    | some l => if l ≠ 0 then l * 1.2 else weight
    | none => weight
  let protein_calories := protein_grams * 4
  let fat_calories := target_calories * fat_percentage
  let fat_grams := fat_calories / 9
  let carb_calories :=
    match carb_percentage with
    | some c => target_calories * c
    | none => target_calories - protein_calories - fat_calories
  let carb_grams := carb_calories / 4
  { protein_grams := protein_grams
    protein_calories := protein_calories
    fat_grams := fat_grams
    fat_calories := fat_calories
    carb_grams := carb_grams
    carb_calories := carb_calories }

/-- Output record of `calculate_micros` (app.py lines 227–230). -/
structure Micros where
  fiber_grams : Rat
  sodium_mg : Rat
  deriving Repr, DecidableEq

/-- `calculate_micros` (app.py lines 204–230). -/
def calculate_micros (days_to_goal : Int) : Micros :=
  if days_to_goal = 3 then { fiber_grams := 8, sodium_mg := 1500 }
  else if days_to_goal = 2 then { fiber_grams := 5, sodium_mg := 1000 }
  else if days_to_goal = 1 then { fiber_grams := 4, sodium_mg := 800 }
  else { fiber_grams := 30, sodium_mg := 2300 }

/-- The inline activity-tier lookup of `food_log_page` (app.py lines
790–801; duplicated in `profile_page` lines 461–472): days-to-goal to
(activity multiplier, fat fraction). -/
def activityTier (days_to_goal : Int) : Rat × Rat :=
  if days_to_goal = 3 then (1.725, 0.25)
  else if days_to_goal = 2 then (1.55, 0.35)
  else if days_to_goal = 1 then (1.375, 0.45)
  else (1.725, 0.25)

/-- The profile fields the daily-plan computation reads
(app.py lines 18–27; `today_date` is not used by `food_log_page`). -/
structure Profile where
  weight : Rat
  target_weight : Rat
  height : Rat
  bodyfat_percentage : Option Rat
  target_date : Int
  deriving Repr, DecidableEq

/-- The values `food_log_page` derives for one day
(app.py lines 780–812). -/
structure DailyTargets where
  bmr : Rat
  base_calories : Rat
  fat_pct : Rat
  target_calories : Rat
  adjustment_info : AdjustmentInfo
  macros : Macros
  micros : Micros
  deriving Repr, DecidableEq

/-- The daily-plan assembly of `food_log_page` (app.py lines 780–812):
BMR, lean body mass (`if profile.bodyfat_percentage and
profile.bodyfat_percentage > 0`, i.e. present and positive),
`days_to_goal = target_date - current_date`, the tier lookup, the
progress adjustment, then macros (with the adjusted calories) and
micros. -/
def computeDailyTargets (profile : Profile) (logs : List WeightEntry)
    (current_date : Int) : DailyTargets :=
  let bmr := calculate_bmr_and_calories profile.weight profile.height
    profile.bodyfat_percentage
  let lean_body_mass : Option Rat :=
    match profile.bodyfat_percentage with
    | some bf =>
      if 0 < bf then some (profile.weight * (1 - bf / 100)) else none
    | none => none
  let days_to_goal := profile.target_date - current_date
  let tier := activityTier days_to_goal
  let base_calories := bmr * tier.1
  let fat_pct := tier.2
  let result := adjust_calories_based_on_progress base_calories profile.weight
    profile.target_weight days_to_goal logs current_date
  let target_calories := result.1
  let adjustment_info := result.2
  let macros := calculate_macros profile.weight target_calories fat_pct
    none lean_body_mass
  let micros := calculate_micros days_to_goal
  { bmr := bmr
    base_calories := base_calories
    fat_pct := fat_pct
    target_calories := target_calories
    adjustment_info := adjustment_info
    macros := macros
    micros := micros }

/-! ## Claim theorems -/

/-- C2: for every input with `days_to_goal ≤ 3` the Progress Adjuster
returns `base_calories` unchanged with `adjusted = false`, and the result
does not depend on the weight history at all. -/
theorem adjuster_within_three_days (b w t : Rat) (d : Int)
    (logs logs2 : List WeightEntry) (cd cd2 : Int) (hd : d ≤ 3) :
    (adjust_calories_based_on_progress b w t d logs cd).1 = b ∧
    (adjust_calories_based_on_progress b w t d logs cd).2.adjusted = false ∧
    adjust_calories_based_on_progress b w t d logs cd =
      adjust_calories_based_on_progress b w t d logs2 cd2 := by
  simp [adjust_calories_based_on_progress, hd]

/-- Witness for C2: `days_to_goal = 2` with two different histories. -/
theorem adjuster_within_three_days_witness :
    (adjust_calories_based_on_progress 2000 180 175 2 [] 0).1 = 2000 ∧
    (adjust_calories_based_on_progress 2000 180 175 2 [] 0).2.adjusted = false ∧
    adjust_calories_based_on_progress 2000 180 175 2 [] 0 =
      adjust_calories_based_on_progress 2000 180 175 2 [⟨0, 190⟩] 7 :=
  adjuster_within_three_days 2000 180 175 2 [] [⟨0, 190⟩] 0 7 (by norm_num)

/-- C3: with `days_to_goal > 3` and no weight entry at or before the
evaluation date, the adjuster degrades gracefully: `base_calories`
unchanged, `adjusted = false`, `needs_weight_log = true`, and a reason
saying that logging weight enables adjustment. -/
theorem adjuster_no_weight_history (b w t : Rat) (d : Int)
    (logs : List WeightEntry) (cd : Int) (hd : 3 < d)
    (hnone : latestWeightOnOrBefore logs cd = none) :
    adjust_calories_based_on_progress b w t d logs cd =
      (b, { adjusted := false
            adjustment := none
            reason := "No weight logged yet - log your weight to enable dynamic adjustments"
            needs_weight_log := some true
            actual_weight := none
            target_weight_at_stage := none
            difference := none }) := by
  have h : ¬ d ≤ 3 := by omega
  simp [adjust_calories_based_on_progress, h, hnone]

/-- Witness for C3: five days out with an empty weight history. -/
theorem adjuster_no_weight_history_witness :
    adjust_calories_based_on_progress 2000 180 150 5 [] 0 =
      (2000, { adjusted := false
               adjustment := none
               reason := "No weight logged yet - log your weight to enable dynamic adjustments"
               needs_weight_log := some true
               actual_weight := none
               target_weight_at_stage := none
               difference := none }) :=
  adjuster_no_weight_history 2000 180 150 5 [] 0 (by norm_num) rfl

/-- C10: the `current_weight` argument (the profile's stated weight)
never influences the adjuster's result: two calls differing only in it
return identical calories and identical adjustment info. -/
theorem adjuster_ignores_current_weight (b w1 w2 t : Rat) (d : Int)
    (logs : List WeightEntry) (cd : Int) :
    adjust_calories_based_on_progress b w1 t d logs cd =
      adjust_calories_based_on_progress b w2 t d logs cd := rfl

/-- C1: with `days_to_goal > 3` and a latest weight entry at or before the
evaluation date, the adjuster compares the logged weight against
`expected = target_weight * 1.05`: diff above 1.0 gives
`base_calories - 200` with `adjusted = true`, diff below −1.0 gives
`base_calories + 200` with `adjusted = true`, and any diff in [−1.0, 1.0]
(ends included) leaves `base_calories` with `adjusted = false`. -/
theorem adjuster_comparison_branch (b w t : Rat) (d : Int)
    (logs : List WeightEntry) (cd : Int) (e : WeightEntry) (hd : 3 < d)
    (he : latestWeightOnOrBefore logs cd = some e) :
    (1.0 < e.weight - t * 1.05 →
      (adjust_calories_based_on_progress b w t d logs cd).1 = b - 200 ∧
      (adjust_calories_based_on_progress b w t d logs cd).2.adjusted = true) ∧
    (e.weight - t * 1.05 < -1.0 →
      (adjust_calories_based_on_progress b w t d logs cd).1 = b + 200 ∧
      (adjust_calories_based_on_progress b w t d logs cd).2.adjusted = true) ∧
    (-1.0 ≤ e.weight - t * 1.05 → e.weight - t * 1.05 ≤ 1.0 →
      (adjust_calories_based_on_progress b w t d logs cd).1 = b ∧
      (adjust_calories_based_on_progress b w t d logs cd).2.adjusted = false) := by
  have h3 : ¬ d ≤ 3 := by omega
  refine ⟨fun hgt => ?_, fun hlt => ?_, fun hge hle => ?_⟩
  · simp [adjust_calories_based_on_progress, h3, he, hgt]
    ring
  · have hngt : ¬ 1.0 < e.weight - t * 1.05 := by linarith
    simp [adjust_calories_based_on_progress, h3, he, hngt, hlt]
  · have hngt : ¬ 1.0 < e.weight - t * 1.05 := by linarith
    have hnlt : ¬ e.weight - t * 1.05 < -1.0 := by linarith
    simp [adjust_calories_based_on_progress, h3, he, hngt, hnlt]

/-- Witness for C1: target 150 (expected 157.5), logged weight 159.0,
diff 1.5 > 1, five days out: calories drop by 200 and `adjusted = true`. -/
theorem adjuster_comparison_branch_witness :
    (adjust_calories_based_on_progress 2000 180 150 5 [⟨0, 159⟩] 0).1 = 1800 ∧
    (adjust_calories_based_on_progress 2000 180 150 5 [⟨0, 159⟩] 0).2.adjusted = true := by
  have h := (adjuster_comparison_branch 2000 180 150 5 [⟨0, 159⟩] 0 ⟨0, 159⟩
    (by norm_num) rfl).1 (by norm_num)
  exact ⟨by rw [h.1]; norm_num, h.2⟩

/-- C4: for positive weight and height, the BMR estimator uses
Katch–McArdle when a body-fat percentage is present and positive, and
Mifflin–St Jeor (fixed age 30) when it is absent or zero. -/
theorem bmr_formula_selection (w h : Rat) (bf : Option Rat)
    (hw : 0 < w) (hh : 0 < h) :
    (∀ p, bf = some p → 0 < p →
      calculate_bmr_and_calories w h bf =
        370 + 21.6 * (w * 0.453592 * (1 - p / 100))) ∧
    (bf = none ∨ bf = some 0 →
      calculate_bmr_and_calories w h bf =
        (10 * (w * 0.453592)) + (6.25 * (h * 2.54)) - (5 * 30) + 5) := by
  constructor
  · rintro p rfl hp
    simp [calculate_bmr_and_calories, hp]
  · rintro (rfl | rfl) <;> simp [calculate_bmr_and_calories]

/-- Witness for C4: weight 180 lbs, height 70 in, body fat 20 % takes
the Katch–McArdle branch. -/
theorem bmr_formula_selection_witness :
    calculate_bmr_and_calories 180 70 (some 20) =
      370 + 21.6 * (180 * 0.453592 * (1 - 20 / 100)) :=
  (bmr_formula_selection 180 70 (some 20) (by norm_num) (by norm_num)).1
    20 rfl (by norm_num)

/-- C5: the activity tier is an exact-match lookup — 3 ↦ (1.725, 0.25),
2 ↦ (1.55, 0.35), 1 ↦ (1.375, 0.45), every other integer ↦ the default
(1.725, 0.25) — and the daily plan's `base_calories` is BMR times the
selected multiplier. -/
theorem activity_tier_exact_match :
    activityTier 3 = (1.725, 0.25) ∧
    activityTier 2 = (1.55, 0.35) ∧
    activityTier 1 = (1.375, 0.45) ∧
    (∀ d : Int, d ≠ 3 → d ≠ 2 → d ≠ 1 → activityTier d = (1.725, 0.25)) ∧
    (∀ (p : Profile) (logs : List WeightEntry) (cd : Int),
      (computeDailyTargets p logs cd).base_calories =
        calculate_bmr_and_calories p.weight p.height p.bodyfat_percentage *
          (activityTier (p.target_date - cd)).1) := by
  refine ⟨rfl, rfl, rfl, fun d h3 h2 h1 => ?_, fun p logs cd => rfl⟩
  simp [activityTier, h3, h2, h1]

/-- Witness for C5: the out-of-table values 0, 7 and −5 all fall to the
default row. -/
theorem activity_tier_exact_match_witness :
    activityTier 0 = (1.725, 0.25) ∧ activityTier 7 = (1.725, 0.25) ∧
    activityTier (-5) = (1.725, 0.25) :=
  ⟨activity_tier_exact_match.2.2.2.1 0 (by decide) (by decide) (by decide),
   activity_tier_exact_match.2.2.2.1 7 (by decide) (by decide) (by decide),
   activity_tier_exact_match.2.2.2.1 (-5) (by decide) (by decide) (by decide)⟩

/-- C6: on the §4.3 inputs (no explicit carb percentage), the Macro
Allocator is exact: protein, fat and carb calories sum to the target,
for every weight, target, fat fraction and optional lean mass — carbs
are the unclamped signed remainder. -/
theorem macro_remainder_law (w tc fp : Rat) (lbm : Option Rat) :
    (calculate_macros w tc fp none lbm).protein_calories +
      (calculate_macros w tc fp none lbm).fat_calories +
      (calculate_macros w tc fp none lbm).carb_calories = tc := by
  cases lbm with
  | none => simp [calculate_macros]
  | some l =>
    by_cases hl : l = 0 <;> simp [calculate_macros, hl]

/-- C7 counterexample: body fat 100 % is inside the stated 0–100 range
and is positive, yet the Katch–McArdle BMR is then 370 for every weight
— weight 100 and weight 200 give the same value, so BMR is not strictly
increasing in weight there. -/
theorem katch_not_strictly_monotone_at_full_bodyfat :
    (0 : Rat) < 100 ∧ (100 : Rat) ≤ 100 ∧ (100 : Rat) < 200 ∧
    calculate_bmr_and_calories 100 70 (some 100) =
      calculate_bmr_and_calories 200 70 (some 100) := by
  norm_num [calculate_bmr_and_calories]

/-- C7 amended: for body fat strictly between 0 and 100 the
Katch–McArdle BMR is strictly increasing in weight, and for positive
weight it is strictly decreasing in body fat over the whole positive
part of the range (100 % included). -/
theorem katch_strict_monotone (h w w1 w2 bf bf1 bf2 : Rat) :
    (0 < w1 → w1 < w2 → 0 < bf → bf < 100 →
      calculate_bmr_and_calories w1 h (some bf) <
        calculate_bmr_and_calories w2 h (some bf)) ∧
    (0 < w → 0 < bf1 → bf1 < bf2 → bf2 ≤ 100 →
      calculate_bmr_and_calories w h (some bf2) <
        calculate_bmr_and_calories w h (some bf1)) := by
  constructor
  · intro hw1 hw12 hbf hbf100
    simp only [calculate_bmr_and_calories, if_pos hbf]
    have hfrac : (0 : Rat) < 1 - bf / 100 := by linarith
    have hstep : w1 * 0.453592 * (1 - bf / 100) <
        w2 * 0.453592 * (1 - bf / 100) := by
      apply mul_lt_mul_of_pos_right _ hfrac
      exact mul_lt_mul_of_pos_right hw12 (by norm_num)
    linarith
  · intro hw hbf1 hbf12 hbf100
    have h1 : (0 : Rat) < 0.453592 := by norm_num
    have hpos2 : 0 < bf2 := lt_trans hbf1 hbf12
    simp only [calculate_bmr_and_calories, if_pos hbf1, if_pos hpos2]
    have hfrac : 1 - bf2 / 100 < 1 - bf1 / 100 := by linarith
    have hstep : w * 0.453592 * (1 - bf2 / 100) <
        w * 0.453592 * (1 - bf1 / 100) :=
      mul_lt_mul_of_pos_left hfrac (mul_pos hw h1)
    linarith

/-- Witness for C7 amended: body fat 20 %, weight 100 < 200 for the
weight part; weight 180, body fat 10 % < 20 % for the body-fat part. -/
theorem katch_strict_monotone_witness :
    calculate_bmr_and_calories 100 70 (some 20) <
        calculate_bmr_and_calories 200 70 (some 20) ∧
    calculate_bmr_and_calories 180 70 (some 20) <
        calculate_bmr_and_calories 180 70 (some 10) :=
  ⟨(katch_strict_monotone 70 180 100 200 20 10 20).1
      (by norm_num) (by norm_num) (by norm_num) (by norm_num),
   (katch_strict_monotone 70 180 100 200 20 10 20).2
      (by norm_num) (by norm_num) (by norm_num) (by norm_num)⟩

/-- C8: the end-to-end plan for weight 180 lbs, height 70 in, body fat
20 %, target weight 175, target date 5 days after the evaluation date
and no weight log: Katch–McArdle BMR, base = BMR × 1.725, target equal
to base (unadjusted), default micro tier (fiber 30 g, sodium 2300 mg),
and protein grams (180 × 0.8) × 1.2 = 172.8. -/
theorem end_to_end_five_days_out :
    (computeDailyTargets ⟨180, 175, 70, some 20, 5⟩ [] 0).bmr =
        370 + 21.6 * (180 * 0.453592 * (1 - 20 / 100)) ∧
    (computeDailyTargets ⟨180, 175, 70, some 20, 5⟩ [] 0).base_calories =
        (computeDailyTargets ⟨180, 175, 70, some 20, 5⟩ [] 0).bmr * 1.725 ∧
    (computeDailyTargets ⟨180, 175, 70, some 20, 5⟩ [] 0).target_calories =
        (computeDailyTargets ⟨180, 175, 70, some 20, 5⟩ [] 0).base_calories ∧
    (computeDailyTargets ⟨180, 175, 70, some 20, 5⟩ [] 0).adjustment_info.adjusted
        = false ∧
    (computeDailyTargets ⟨180, 175, 70, some 20, 5⟩ [] 0).micros.fiber_grams
        = 30 ∧
    (computeDailyTargets ⟨180, 175, 70, some 20, 5⟩ [] 0).micros.sodium_mg
        = 2300 ∧
    (computeDailyTargets ⟨180, 175, 70, some 20, 5⟩ [] 0).macros.protein_grams
        = (180 * 0.8) * 1.2 := by
  refine ⟨?_, rfl, rfl, rfl, rfl, rfl, ?_⟩ <;>
    norm_num [computeDailyTargets, calculate_bmr_and_calories,
      calculate_macros, activityTier, adjust_calories_based_on_progress,
      latestWeightOnOrBefore]

/-- C9 counterexample: the within-3-days branch returns a dict with
neither the delta-calories key (`adjustment`) nor `needs_weight_log`, so
not every branch carries all four AdjustmentInfo fields. -/
theorem adjustment_info_missing_fields :
    (adjust_calories_based_on_progress 2000 180 175 2 [] 0).2.adjustment
        = none ∧
    (adjust_calories_based_on_progress 2000 180 175 2 [] 0).2.needs_weight_log
        = none := ⟨rfl, rfl⟩

/-- C9 amended: every branch's dict has `adjusted` and `reason`; the
delta-calories key (`adjustment`) is present exactly when the comparison
branch runs (`days_to_goal > 3` and some entry at or before the
evaluation date), and `needs_weight_log` exactly when `days_to_goal > 3`
and no such entry exists. -/
theorem adjustment_info_key_presence (b w t : Rat) (d : Int)
    (logs : List WeightEntry) (cd : Int) :
    ((adjust_calories_based_on_progress b w t d logs cd).2.adjustment ≠ none ↔
      (3 < d ∧ latestWeightOnOrBefore logs cd ≠ none)) ∧
    ((adjust_calories_based_on_progress b w t d logs cd).2.needs_weight_log ≠ none ↔
      (3 < d ∧ latestWeightOnOrBefore logs cd = none)) := by
  by_cases hd : d ≤ 3
  · have h3 : ¬ 3 < d := by omega
    simp [adjust_calories_based_on_progress, hd, h3]
  · have h3 : 3 < d := by omega
    cases hlatest : latestWeightOnOrBefore logs cd with
    | none => simp [adjust_calories_based_on_progress, hd, hlatest, h3]
    | some e => simp [adjust_calories_based_on_progress, hd, hlatest, h3]

end WeightCut
